/-
Verification of the RECO bid-crawler core (subsystem B) against its
natural-language specification.

Each Python component the claims mention is shallowly embedded as an
executable Lean definition, translated from the source:
  * `retry_async`                        (utils/retry.py)
  * `CrawlState` and its mutators        (models/crawl_state.py)
  * `BidNotice` construction/transitions (models/bid_notice.py)
  * `JsonStorage.save` / `exists`        (storage/json_storage.py)
  * `StateManager.save` / `load`         (storage/state_manager.py)
  * `PageNavigator.produce_tasks`        (crawler.py)
  * `ItemProcessor.process`              (crawler.py)

Python `Optional[int]` fields become `Option Int` / `Option Nat`; Python
truthiness tests on such fields are modelled explicitly (`None` and `0`
are both falsy, as are `Decimal("0")` and the empty string).  Exceptions
become `Except`.  Wall-clock readings of `datetime.now()` are threaded
as explicit `Nat` arguments.  `Decimal` values are modelled as `Int`
(the prices in this domain are integral won amounts); where only the
success or failure of a `Decimal(str)` conversion matters, the parse
function is a parameter.
-/
import Mathlib

namespace Reco

/-! ## Retry policy (utils/retry.py, `retry_async`) -/

/-- Outcome of one invocation of the wrapped operation: success with a
value, or an exception; `retryable` records whether the exception class
matches `retry_exceptions`, `eid` identifies the concrete exception. -/
inductive Outcome (α : Type) where
  | ok (v : α)
  | exc (retryable : Bool) (eid : Nat)
deriving DecidableEq, Repr

/-- Result of `retry_async`: a returned value, a `RetryError` carrying
the attempt count and the last exception, or a non-retryable exception
propagating out of the loop. -/
inductive RetryResult (α : Type) where
  | ok (v : α)
  | retryError (attempts : Nat) (lastEid : Option Nat)
  | propagated (eid : Nat)
deriving DecidableEq, Repr

/-- Loop body of `retry_async`, indexed by the current `attempt` counter
and the remaining iterations of `range(max_retries + 1)`.  `outcomes k`
is what the `k`-th invocation of `func` does.  Returns the result
together with the number of invocations performed. -/
def retryGo (maxRetries : Nat) (outcomes : Nat → Outcome α) :
    Nat → Nat → RetryResult α × Nat
  | attempt, 0 =>
    -- the guard after the loop (`예상치 못한 재시도 루프 종료`): reached only
    -- if the range is exhausted without a return or raise, which the
    -- source comments mark unreachable; no further invocation happens
    (RetryResult.retryError (maxRetries + 1) none, attempt)
  | attempt, remaining + 1 =>
    match outcomes attempt with
    | Outcome.ok v => (RetryResult.ok v, attempt + 1)
    | Outcome.exc retryable eid =>
      if retryable then
        if attempt = maxRetries then
          (RetryResult.retryError (attempt + 1) (some eid), attempt + 1)
        else
          retryGo maxRetries outcomes (attempt + 1) remaining
      else
        (RetryResult.propagated eid, attempt + 1)

/-- `retry_async` with `max_retries = maxRetries`, run against the
invocation trace `outcomes`.  Second component counts invocations. -/
def retry_async (maxRetries : Nat) (outcomes : Nat → Outcome α) :
    RetryResult α × Nat :=
  retryGo maxRetries outcomes 0 (maxRetries + 1)

/-! ## Crawl state (models/crawl_state.py) -/

/-- `CrawlProgress`: position within the paginated listing. -/
structure CrawlProgress where
  current_page : Nat := 1
  current_index : Nat := 0
  total_pages : Option Nat := none
  last_completed_page : Nat := 0
deriving DecidableEq, Repr

/-- `CrawlStatistics`: cumulative counters. -/
structure CrawlStatistics where
  total_collected : Nat := 0
  list_collected : Nat := 0
  detail_collected : Nat := 0
  errors : Nat := 0
  retries : Nat := 0
  skipped_duplicates : Nat := 0
deriving DecidableEq, Repr

/-- One entry of `failed_items`: `{info, error, timestamp}`. -/
structure FailedItem where
  info : String
  error : String
  timestamp : Nat
deriving DecidableEq, Repr

/-- `CrawlState`: the persisted checkpoint document. -/
structure CrawlState where
  run_id : String
  started_at : Nat
  last_updated_at : Nat
  is_running : Bool := false
  is_completed : Bool := false
  last_error : Option String := none
  progress : CrawlProgress := {}
  statistics : CrawlStatistics := {}
  collected_ids : Finset String := ∅
  failed_items : List FailedItem := []
deriving DecidableEq

/-- A freshly constructed `CrawlState(run_id=...)`. -/
def mkCrawlState (runId : String) (now : Nat) : CrawlState :=
  { run_id := runId, started_at := now, last_updated_at := now }

/-- `CrawlState.mark_collected`: returns `True` for a new id; on a
duplicate increments `skipped_duplicates` and returns `False` leaving
`collected_ids` and `total_collected` untouched. -/
def CrawlState.mark_collected (s : CrawlState) (bidId : String) (now : Nat) :
    Bool × CrawlState :=
  if bidId ∈ s.collected_ids then
    (false, { s with
      statistics := { s.statistics with
        skipped_duplicates := s.statistics.skipped_duplicates + 1 } })
  else
    (true, { s with
      collected_ids := insert bidId s.collected_ids,
      statistics := { s.statistics with
        total_collected := s.statistics.total_collected + 1 },
      last_updated_at := now })

/-- `CrawlState.is_collected`. -/
def CrawlState.is_collected (s : CrawlState) (bidId : String) : Bool :=
  bidId ∈ s.collected_ids

/-- `CrawlState.record_error`. -/
def CrawlState.record_error (s : CrawlState) (error : String)
    (itemInfo : Option String) (now : Nat) : CrawlState :=
  { s with
    statistics := { s.statistics with errors := s.statistics.errors + 1 },
    last_error := some error,
    last_updated_at := now,
    failed_items := s.failed_items ++
      (match itemInfo with
       | some info => [{ info := info, error := error, timestamp := now }]
       | none => []) }

/-- `CrawlState.record_retry`. -/
def CrawlState.record_retry (s : CrawlState) (now : Nat) : CrawlState :=
  { s with
    statistics := { s.statistics with retries := s.statistics.retries + 1 },
    last_updated_at := now }

/-- `CrawlState.update_progress`. -/
def CrawlState.update_progress (s : CrawlState)
    (page index totalPages : Option Nat) (now : Nat) : CrawlState :=
  { s with
    progress := { s.progress with
      current_page := page.getD s.progress.current_page,
      current_index := index.getD s.progress.current_index,
      total_pages := match totalPages with
        | some t => some t
        | none => s.progress.total_pages },
    last_updated_at := now }

/-- `CrawlState.complete_page`. -/
def CrawlState.complete_page (s : CrawlState) (page : Nat) (now : Nat) :
    CrawlState :=
  { s with
    progress := { s.progress with
      last_completed_page := page, current_index := 0 },
    last_updated_at := now }

/-- `CrawlState.mark_completed`. -/
def CrawlState.mark_completed (s : CrawlState) (now : Nat) : CrawlState :=
  { s with is_completed := true, is_running := false, last_updated_at := now }

/-- One mutator applied to the shared `CrawlState` (the operations the
claim quantifies over), with their `datetime.now()` readings. -/
inductive CrawlOp where
  | mark (bidId : String) (now : Nat)
  | err (msg : String) (info : Option String) (now : Nat)
  | retryRec (now : Nat)
  | prog (page index totalPages : Option Nat) (now : Nat)
  | page (p : Nat) (now : Nat)
  | complete (now : Nat)
deriving DecidableEq, Repr

/-- Apply one operation (the Boolean result of `mark_collected` is
dropped here; the claim about it is stated separately). -/
def applyOp (s : CrawlState) : CrawlOp → CrawlState
  | CrawlOp.mark bidId now => (s.mark_collected bidId now).2
  | CrawlOp.err msg info now => s.record_error msg info now
  | CrawlOp.retryRec now => s.record_retry now
  | CrawlOp.prog page index totalPages now =>
      s.update_progress page index totalPages now
  | CrawlOp.page p now => s.complete_page p now
  | CrawlOp.complete now => s.mark_completed now

/-- Run a sequence of operations from a given state. -/
def runOps (s : CrawlState) (ops : List CrawlOp) : CrawlState :=
  ops.foldl applyOp s

/-- The invariant of claim C2: the `total_collected` counter tracks the
cardinality of the dedup set. -/
def StateInv (s : CrawlState) : Prop :=
  s.statistics.total_collected = s.collected_ids.card

/-! ## Bid notice domain model (models/bid_notice.py) -/

/-- `BidType`. -/
inductive BidType where
  | goods | service | construction | foreign | other
deriving DecidableEq, Repr

/-- `BidStatus`. -/
inductive BidStatus where
  | open_ | closed | cancelled | postponed | rebid | unknown
deriving DecidableEq, Repr

/-- `BidNotice` (list-page item).  `estimated_price`/`base_price` are
`Decimal`-valued, modelled as `Option Int`. -/
structure BidNotice where
  bid_notice_id : String
  title : String
  bid_type : BidType := BidType.other
  status : BidStatus := BidStatus.unknown
  organization : Option String := none
  announce_date : Option Nat := none
  deadline : Option Nat := none
  estimated_price : Option Int := none
  base_price : Option Int := none
  detail_url : Option String := none
  crawled_at : Nat := 0
deriving DecidableEq, Repr

/-- The `valid_transitions` table of `BidNotice.transition_to`
(`valid_transitions.get(self.status, [])` yields `[]` for statuses
absent from the dict). -/
def validTransitions : BidStatus → List BidStatus
  | BidStatus.open_ => [BidStatus.closed, BidStatus.cancelled, BidStatus.postponed]
  | BidStatus.postponed => [BidStatus.open_, BidStatus.cancelled, BidStatus.rebid]
  | BidStatus.rebid => [BidStatus.open_]
  | _ => []

/-- `BidNotice.transition_to`: `InvalidBidDataException` becomes
`Except.error ()`; an allowed transition returns
`model_copy(update={"status": new_status})`. -/
def BidNotice.transition_to (b : BidNotice) (newStatus : BidStatus) :
    Except Unit BidNotice :=
  if newStatus ∈ validTransitions b.status then
    Except.ok { b with status := newStatus }
  else
    Except.error ()

/-- The transition table exactly as the claim sentence words it:
OPEN → {CLOSED, CANCELLED, POSTPONED}, POSTPONED → {OPEN, CANCELLED,
REBID}, REBID → {OPEN}.  Kept separate from `validTransitions` so the
code table can be compared against the claim table. -/
def claimAllowed : BidStatus → BidStatus → Bool
  | BidStatus.open_, BidStatus.closed => true
  | BidStatus.open_, BidStatus.cancelled => true
  | BidStatus.open_, BidStatus.postponed => true
  | BidStatus.postponed, BidStatus.open_ => true
  | BidStatus.postponed, BidStatus.cancelled => true
  | BidStatus.postponed, BidStatus.rebid => true
  | BidStatus.rebid, BidStatus.open_ => true
  | _, _ => false

/-- Raw input offered for a price field before validation: a numeric
value or a string, mirroring the `int/float/str` inputs that
`convert_to_decimal` converts via `Decimal(str(v))`. -/
inductive PriceInput where
  | num (d : Int)
  | txt (s : String)
deriving DecidableEq, Repr

/-- `BidNotice.convert_to_decimal` (`mode='before'` validator): `None`
passes through, numbers convert directly, strings go through the
`Decimal` constructor (`decParse`); an unconvertible value raises
`InvalidBidDataException` (`Except.error ()`).  No sign or emptiness
check appears anywhere in the validator. -/
def convertToDecimal (decParse : String → Option Int) :
    Option PriceInput → Except Unit (Option Int)
  | none => Except.ok none
  | some (PriceInput.num d) => Except.ok (some d)
  | some (PriceInput.txt s) =>
    match decParse s with
    | some d => Except.ok (some d)
    | none => Except.error ()

/-- Constructing `BidNotice(bid_notice_id=.., title=.., status=..,
estimated_price=.., base_price=.., detail_url=..)`: the only validation
pydantic runs is `convert_to_decimal` on the two price fields. -/
def mkBidNotice (decParse : String → Option Int) (bidNoticeId title : String)
    (status : BidStatus) (est base : Option PriceInput)
    (detailUrl : Option String) (now : Nat) : Except Unit BidNotice :=
  match convertToDecimal decParse est with
  | Except.error e => Except.error e
  | Except.ok e =>
    match convertToDecimal decParse base with
    | Except.error e2 => Except.error e2
    | Except.ok bp =>
      Except.ok { bid_notice_id := bidNoticeId, title := title,
                  status := status, estimated_price := e, base_price := bp,
                  detail_url := detailUrl, crawled_at := now }

/-- `BidNotice.serialize_decimal` (`when_used='json'`): the source reads
`return str(v) if v else None`, so a present but *zero* decimal is
truthy-false and serializes to `None` (JSON `null`), while any nonzero
decimal serializes to its string form. -/
def serialize_decimal (v : Option Int) : Option String :=
  match v with
  | none => none
  | some d => if d ≠ 0 then some (toString d) else none

/-- The decimal-field restore step of `JsonStorage._from_dict`: a `None`
field stays `None`; a present field goes through `Decimal(str(...))`,
falling back to `None` on failure (modelled by `String.toInt?`). -/
def parseDecimalField (v : Option String) : Option Int :=
  match v with
  | none => none
  | some s => s.toInt?

/-! ## JSON repository (storage/json_storage.py) -/

/-- Repository errors: `DuplicateBidException` (strict mode) and
`RepositoryException` (I/O failure in `flush`/`_save_individual`). -/
inductive RepoErr where
  | duplicate (bidId : String)
  | repoFail
deriving DecidableEq, Repr

/-- `JsonStorage` state: the write buffer, the in-memory id cache, the
durable file contents, the two construction flags, and a flag saying
whether the underlying file I/O fails (source of
`RepositoryException`). -/
structure Storage (α : Type) where
  buffer : List α := []
  idCache : List String := []
  disk : List α := []
  individualFiles : Bool := false
  raiseOnDuplicate : Bool := false
  ioFail : Bool := false
deriving DecidableEq

/-- `JsonStorage.exists`: membership in the in-memory id cache. -/
def Storage.existsId (s : Storage α) (bidId : String) : Bool :=
  s.idCache.contains bidId

/-- `JsonStorage.flush`: merges the buffer into the file, deduplicating
against ids already on disk, then clears the buffer; raises
`RepositoryException` when the write fails. -/
def Storage.flushOp (keyOf : α → String) (s : Storage α) :
    Except RepoErr (Storage α) :=
  if s.buffer.isEmpty then Except.ok s
  else if s.ioFail then Except.error RepoErr.repoFail
  else
    let existingIds := s.disk.map keyOf
    let newItems := s.buffer.filter (fun i => !(existingIds.contains (keyOf i)))
    Except.ok { s with disk := s.disk ++ newItems, buffer := [] }

/-- The buffered-append step inside `save`: append the item to the
buffer and record its id in the cache. -/
def bufferAppend (keyOf : α → String) (s : Storage α) (bid : α) : Storage α :=
  { s with buffer := s.buffer ++ [bid], idCache := keyOf bid :: s.idCache }

/-- `JsonStorage.save`: duplicate check against the cache first (return
`False`, or raise in strict mode); then either an individual-file write
or a buffered append, adding the id to the cache, flushing once the
buffer reaches 10 entries. -/
def Storage.saveOp (keyOf : α → String) (s : Storage α) (bid : α) :
    Except RepoErr (Bool × Storage α) :=
  let bidId := keyOf bid
  if s.existsId bidId then
    if s.raiseOnDuplicate then Except.error (RepoErr.duplicate bidId)
    else Except.ok (false, s)
  else if s.individualFiles then
    if s.ioFail then Except.error RepoErr.repoFail
    else Except.ok (true,
      { s with disk := s.disk ++ [bid], idCache := bidId :: s.idCache })
  else
    let s1 := bufferAppend keyOf s bid
    if 10 ≤ s1.buffer.length then
      match s1.flushOp keyOf with
      | Except.error e => Except.error e
      | Except.ok s2 => Except.ok (true, s2)
    else Except.ok (true, s1)

/-- `JsonStorage.__init__` + `_load_id_cache`: the cache is hydrated
from the ids on disk, keeping only truthy (non-empty) ids. -/
def mkStorage (disk : List α) (keyOf : α → String)
    (individualFiles raiseOnDuplicate ioFail : Bool) : Storage α :=
  { buffer := [],
    idCache := (disk.map keyOf).filter (fun bidId => bidId ≠ ""),
    disk := disk,
    individualFiles := individualFiles,
    raiseOnDuplicate := raiseOnDuplicate,
    ioFail := ioFail }

/-- An id was accepted by the repository: it is buffered or durable. -/
def Accepted (keyOf : α → String) (s : Storage α) (bidId : String) : Prop :=
  bidId ∈ s.buffer.map keyOf ∨ bidId ∈ s.disk.map keyOf

/-- The cache correctly reflects the accepted ids (claim C5's framing
"buffered or durable"); established at construction and preserved by
`save`/`flush`. -/
def StorageInv (keyOf : α → String) (s : Storage α) : Prop :=
  ∀ x, x ∈ s.idCache ↔ Accepted keyOf s x

/-! ## State manager persistence (storage/state_manager.py) -/

/-- `Path.with_suffix` semantics on a path string: drop the final
dot-suffix of the last component (none if the component has no dot or
is a bare dotfile), used by
`self.backup_file = self.state_file.with_suffix(".backup.json")`. -/
def dropDotSuffix (p : String) : String :=
  let r := p.toList.reverse
  let ext := r.takeWhile (fun c => c ≠ '.' ∧ c ≠ '/')
  match r.drop ext.length with
  | '.' :: rest =>
    if rest.isEmpty ∨ rest.head? = some '/' then p
    else String.mk rest.reverse
  | _ => p

/-- The backup sidecar path computed in `StateManager.__init__`. -/
def backupFileOf (stateFile : String) : String :=
  dropDotSuffix stateFile ++ ".backup.json"

/-- `StateManager.save` restricted to its file-system effect: if the
state file exists its contents are first copied to the backup path, and
only then is the serialized state written to the primary path.  The
file system is a map from paths to contents. -/
def stateManagerSave (fsys : String → Option String) (stateFile : String)
    (serialized : String) : String → Option String :=
  let backupPath := backupFileOf stateFile
  let afterBackup : String → Option String :=
    match fsys stateFile with
    | some old => fun q => if q = backupPath then some old else fsys q
    | none => fsys
  fun q => if q = stateFile then some serialized else afterBackup q

/-- The two files `StateManager.load` looks at. -/
structure StateFiles where
  primary : Option String
  backup : Option String
deriving DecidableEq, Repr

/-- Result of one `load` call: a normal return (`Option` state), or an
uncaught `RecursionError` bubbling out of a recursive call (which the
*caller's* backup-restore `except Exception` then catches). -/
inductive LoadOut (σ : Type) where
  | ok (s : Option σ)
  | recErr
deriving DecidableEq, Repr

/-- `StateManager.load`.  `parse` is the JSON-decode + model-validate
step; `fuel` models the Python recursion limit (a `RecursionError` at
fuel 0 is caught by the caller's `except` and turned into `None`).
When the primary parses, its state is returned; when it fails and a
backup exists, the backup is copied over the primary
(`shutil.copy(self.backup_file, self.state_file)`) and `load` recurses
on the result. -/
def loadGo (parse : String → Option σ) : Nat → StateFiles → LoadOut σ
  | 0, _ => LoadOut.recErr
  | fuel + 1, fs =>
    match fs.primary with
    | none => LoadOut.ok none
    | some p =>
      match parse p with
      | some st => LoadOut.ok (some st)
      | none =>
        match fs.backup with
        | some b =>
          match loadGo parse fuel { fs with primary := some b } with
          | LoadOut.recErr => LoadOut.ok none
          | LoadOut.ok r => LoadOut.ok r
        | none => LoadOut.ok none

/-- `StateManager.load` entered with the interpreter's recursion
headroom `recLimit`. -/
def stateManagerLoad (parse : String → Option σ) (recLimit : Nat)
    (fs : StateFiles) : LoadOut σ :=
  loadGo parse recLimit fs

/-! ## Producer (crawler.py, `PageNavigator.produce_tasks`) -/

/-- One successful list-page scrape: the extracted item ids and the
`has_next` flag. -/
structure PageData where
  items : List String
  hasNext : Bool
deriving DecidableEq, Repr

/-- The `max_pages` stop test exactly as written:
`if self.config.max_pages and current_page > self.config.max_pages` —
a `None` *or zero* `max_pages` is falsy, so the comparison is skipped
entirely and no page limit applies. -/
def maxPagesStop (maxPages : Option Nat) (currentPage : Nat) : Bool :=
  match maxPages with
  | none => false
  | some n => if n = 0 then false else decide (currentPage > n)

/-- The worker/producer `max_items` test:
`if self.config.max_items and items_collected >= self.config.max_items`
— again `None` or zero is falsy and disables the limit. -/
def maxItemsStop (maxItems : Option Nat) (itemsCollected : Nat) : Bool :=
  match maxItems with
  | none => false
  | some n => if n = 0 then false else decide (itemsCollected ≥ n)

/-- `PageNavigator.produce_tasks` with `start_index = 0`, driven by the
sequence of successful page scrapes (an empty remainder models a scrape
failure after retries / no further pages, which breaks the loop).
Emits `(page_num, item)` tasks. -/
def produce_tasks (maxPages : Option Nat) :
    Nat → List PageData → List (Nat × String)
  | _, [] => []
  | currentPage, pg :: rest =>
    if maxPagesStop maxPages currentPage then []
    else if pg.items.isEmpty then []
    else
      pg.items.map (fun it => (currentPage, it)) ++
        (if pg.hasNext then produce_tasks maxPages (currentPage + 1) rest
         else [])

/-! ## Consumer (crawler.py, `ItemProcessor`) -/

/-- `BidNoticeDetail` as far as the processor claims go: the fields
copied from the list notice (`**notice.model_dump()`), plus the crawl
metadata. -/
structure DetailRecord where
  base : BidNotice
  detail_crawled_at : Option Nat := none
  crawl_success : Bool := true
  crawl_error : Option String := none
deriving DecidableEq, Repr

/-- What one detail-scrape attempt (already wrapped in `retry_async`)
produces: a detail record, `RetryError` exhaustion, or an unexpected
exception. -/
inductive ScrapeResult where
  | ok (d : DetailRecord)
  | exhausted (msg : String)
  | unexpected
deriving DecidableEq, Repr

/-- `ItemProcessor._crawl_detail`.  Returns the result plus the number
of times the `DetailScraper` was invoked (0 or 1; the retried attempts
inside `retry_async` are collapsed into the single `scrape` call). -/
def crawl_detail (scrape : String → BidNotice → ScrapeResult)
    (baseUrl : String) (notice : BidNotice) (now : Nat) :
    Option DetailRecord × Nat :=
  match notice.detail_url with
  | none =>
    (some { base := notice, detail_crawled_at := some now,
            crawl_success := false, crawl_error := some "No detail URL" }, 0)
  | some url =>
    let fullUrl := if url.startsWith "http" then url else baseUrl ++ url
    match scrape fullUrl notice with
    | ScrapeResult.ok d => (some d, 1)
    | ScrapeResult.exhausted msg =>
      (some { base := notice, detail_crawled_at := some now,
              crawl_success := false, crawl_error := some msg }, 1)
    | ScrapeResult.unexpected => (none, 1)

/-- Result of `ItemProcessor.process`: the returned detail (or `None`),
the scraper invocation count, and the updated shared state. -/
structure ProcResult where
  result : Option DetailRecord
  scraperCalls : Nat
  state : CrawlState
  repo : Storage DetailRecord
deriving DecidableEq

/-- `ItemProcessor.process`: duplicate check, progress update, detail
crawl, then `repository.save(detail)` (whose exceptions propagate) and
`mark_collected(notice.bid_notice_id)` whenever a detail was
produced. -/
def item_process (scrape : String → BidNotice → ScrapeResult)
    (baseUrl : String) (notice : BidNotice) (index : Nat) (now : Nat)
    (st : CrawlState) (repo : Storage DetailRecord) :
    Except RepoErr ProcResult :=
  if st.is_collected notice.bid_notice_id then
    Except.ok { result := none, scraperCalls := 0, state := st, repo := repo }
  else
    let st1 := st.update_progress none (some index) none now
    let (res, calls) := crawl_detail scrape baseUrl notice now
    match res with
    | some d =>
      match Storage.saveOp (fun r => r.base.bid_notice_id) repo d with
      | Except.error e => Except.error e
      | Except.ok (_, repo1) =>
        let st2 := (st1.mark_collected notice.bid_notice_id now).2
        Except.ok { result := some d, scraperCalls := calls,
                    state := st2, repo := repo1 }
    | none =>
      Except.ok { result := none, scraperCalls := calls,
                  state := st1, repo := repo }

/-! ## Lemmas and claim theorems -/

lemma retryGo_all_retryable (maxRetries : Nat) (outcomes : Nat → Outcome α)
    (h : ∀ k, k ≤ maxRetries → ∃ eid, outcomes k = Outcome.exc true eid) :
    ∀ remaining attempt, attempt + remaining = maxRetries + 1 → 1 ≤ remaining →
      ∃ eid, outcomes maxRetries = Outcome.exc true eid ∧
        retryGo maxRetries outcomes attempt remaining =
          (RetryResult.retryError (maxRetries + 1) (some eid), maxRetries + 1) := by
  intro remaining
  induction remaining with
  | zero => intro attempt _ hge; omega
  | succ n ih =>
    intro attempt hsum _
    have hle : attempt ≤ maxRetries := by omega
    obtain ⟨eid, heid⟩ := h attempt hle
    by_cases hlast : attempt = maxRetries
    · subst hlast
      refine ⟨eid, heid, ?_⟩
      simp [retryGo, heid]
    · obtain ⟨eid2, heid2, hrec⟩ := ih (attempt + 1) (by omega) (by omega)
      refine ⟨eid2, heid2, ?_⟩
      simp [retryGo, heid, hlast, hrec]

lemma retryGo_nonretryable (maxRetries : Nat) (outcomes : Nat → Outcome α)
    (j : Nat) (eid : Nat)
    (h1 : ∀ k, k < j → ∃ e, outcomes k = Outcome.exc true e)
    (h2 : outcomes j = Outcome.exc false eid) (hj : j ≤ maxRetries) :
    ∀ remaining attempt, attempt + remaining = maxRetries + 1 → attempt ≤ j →
      retryGo maxRetries outcomes attempt remaining =
        (RetryResult.propagated eid, j + 1) := by
  intro remaining
  induction remaining with
  | zero => intro attempt hsum hle; omega
  | succ n ih =>
    intro attempt hsum hle
    by_cases hja : attempt = j
    · subst hja
      simp [retryGo, h2]
    · obtain ⟨e, he⟩ := h1 attempt (by omega)
      have hne : attempt ≠ maxRetries := by omega
      simp only [retryGo, he, if_pos rfl, if_neg hne]
      exact ih (attempt + 1) (by omega) (by omega)

/-- C1: when every attempt `0 .. max_retries` fails with an exception
matching `retry_exceptions`, `retry_async` invokes the operation exactly
`max_retries + 1` times and raises `RetryError` with
`attempts = max_retries + 1` carrying the last exception; a
non-matching exception at the first failing attempt `j` propagates with
no invocation after it (`j + 1` invocations in total). -/
theorem retry_exhaustion_and_propagation (maxRetries : Nat)
    (outcomes : Nat → Outcome α) :
    (∀ eid, (∀ k, k ≤ maxRetries → ∃ e, outcomes k = Outcome.exc true e) →
      outcomes maxRetries = Outcome.exc true eid →
      retry_async maxRetries outcomes =
        (RetryResult.retryError (maxRetries + 1) (some eid), maxRetries + 1)) ∧
    (∀ j eid, (∀ k, k < j → ∃ e, outcomes k = Outcome.exc true e) →
      outcomes j = Outcome.exc false eid → j ≤ maxRetries →
      retry_async maxRetries outcomes =
        (RetryResult.propagated eid, j + 1)) := by
  constructor
  · intro eid hall hlast
    obtain ⟨e2, he2, hrun⟩ :=
      retryGo_all_retryable maxRetries outcomes hall (maxRetries + 1) 0
        (by omega) (by omega)
    have : e2 = eid := by
      rw [hlast] at he2
      cases he2
      rfl
    subst this
    exact hrun
  · intro j eid h1 h2 hj
    exact retryGo_nonretryable maxRetries outcomes j eid h1 h2 hj
      (maxRetries + 1) 0 (by omega) (by omega)

/-- Witness for C1 at `max_retries = 2`: an all-retryable trace exhausts
after 3 invocations, and a trace whose first outcome is non-retryable
propagates after a single invocation. -/
theorem retry_exhaustion_and_propagation_witness :
    retry_async 2 (fun k => (Outcome.exc true k : Outcome Nat)) =
      (RetryResult.retryError 3 (some 2), 3) ∧
    retry_async 2 (fun k => if k = 0 then (Outcome.exc false 7 : Outcome Nat)
                            else Outcome.exc true 0) =
      (RetryResult.propagated 7, 1) := by
  constructor
  · exact (retry_exhaustion_and_propagation 2 _).1 2 (fun k _ => ⟨k, rfl⟩) rfl
  · exact (retry_exhaustion_and_propagation 2 _).2 0 7
      (fun k hk => absurd hk (by omega)) rfl (by omega)

lemma applyOp_inv (s : CrawlState) (op : CrawlOp) (h : StateInv s) :
    StateInv (applyOp s op) := by
  cases op with
  | mark bidId now =>
    by_cases hmem : bidId ∈ s.collected_ids
    · simpa [applyOp, CrawlState.mark_collected, hmem, StateInv] using h
    · simp [applyOp, CrawlState.mark_collected, hmem, StateInv,
        Finset.card_insert_of_not_mem hmem]
      exact h
  | err msg info now => simpa [applyOp, CrawlState.record_error, StateInv] using h
  | retryRec now => simpa [applyOp, CrawlState.record_retry, StateInv] using h
  | prog page index totalPages now =>
    simpa [applyOp, CrawlState.update_progress, StateInv] using h
  | page p now => simpa [applyOp, CrawlState.complete_page, StateInv] using h
  | complete now => simpa [applyOp, CrawlState.mark_completed, StateInv] using h

lemma runOps_inv (s : CrawlState) (ops : List CrawlOp) (h : StateInv s) :
    StateInv (runOps s ops) := by
  induction ops generalizing s with
  | nil => simpa [runOps] using h
  | cons op rest ih =>
    simpa [runOps] using ih (applyOp s op) (applyOp_inv s op h)

/-- C2: after any sequence of mutators applied to a fresh `CrawlState`,
`statistics.total_collected` equals `|collected_ids|`; and
`mark_collected` on an already-collected id returns `false`, bumps
`skipped_duplicates`, and leaves `collected_ids` and `total_collected`
unchanged. -/
theorem crawlstate_collected_invariant :
    (∀ runId now ops, StateInv (runOps (mkCrawlState runId now) ops)) ∧
    (∀ (s : CrawlState) (bidId : String) (now : Nat), bidId ∈ s.collected_ids →
      (s.mark_collected bidId now).1 = false ∧
      (s.mark_collected bidId now).2.collected_ids = s.collected_ids ∧
      (s.mark_collected bidId now).2.statistics.total_collected =
        s.statistics.total_collected ∧
      (s.mark_collected bidId now).2.statistics.skipped_duplicates =
        s.statistics.skipped_duplicates + 1) := by
  constructor
  · intro runId now ops
    exact runOps_inv _ ops (by simp [StateInv, mkCrawlState])
  · intro s bidId now hmem
    simp [CrawlState.mark_collected, hmem]

/-- Witness for C2: a two-op run keeps the invariant, and re-marking an
already-collected id is a counted no-op. -/
theorem crawlstate_collected_invariant_witness :
    StateInv (runOps (mkCrawlState "r" 0)
      [CrawlOp.mark "A" 1, CrawlOp.mark "A" 2]) ∧
    (((mkCrawlState "r" 0).mark_collected "A" 1).2.mark_collected "A" 2).1
      = false := by
  constructor
  · exact crawlstate_collected_invariant.1 "r" 0 _
  · exact (crawlstate_collected_invariant.2
      ((mkCrawlState "r" 0).mark_collected "A" 1).2 "A" 2 (by decide)).1

/-- C3 evaluated at the failing input: `max_pages = 0` (and likewise
`max_items = 0`) is falsy in the guards
`if self.config.max_pages and ...` / `if self.config.max_items and ...`,
so neither limit applies: a single list page with one item still yields
a task (which a worker then processes and saves), contradicting the
claim that the run writes nothing. -/
theorem maxpages_zero_still_produces :
    produce_tasks (some 0) 1 [{ items := ["A"], hasNext := false }]
      = [(1, "A")] ∧
    maxPagesStop (some 0) 1 = false ∧
    maxItemsStop (some 0) 5 = false := by
  refine ⟨rfl, rfl, rfl⟩

/-- C4 evaluated at the failing input: `serialize_decimal` reads
`str(v) if v else None`, and `Decimal("0")` is falsy, so a present zero
price serializes to JSON `null` and parses back to an absent value —
the round-trip fails at `d = 0` while nonzero values do serialize as
strings. -/
theorem serialize_decimal_zero_is_null :
    serialize_decimal (some 0) = none ∧
    parseDecimalField (serialize_decimal (some 0)) = none ∧
    serialize_decimal (some 1000) = some "1000" := by
  refine ⟨rfl, rfl, rfl⟩

/-- C6: `transition_to` raises exactly when the pair
`(b.status, new_status)` is outside the claim's table, and an allowed
transition returns a copy of `b` whose only changed field is `status`
(the original value is untouched — the model is pure and the source
uses `model_copy`). -/
theorem bidnotice_transition_table (b : BidNotice) (s : BidStatus) :
    (b.transition_to s = Except.error () ↔ claimAllowed b.status s = false) ∧
    (claimAllowed b.status s = true →
      b.transition_to s = Except.ok { b with status := s }) := by
  obtain ⟨id, title, bt, st, org, ad, dl, ep, bp, du, ca⟩ := b
  cases st <;> cases s <;>
    simp [BidNotice.transition_to, validTransitions, claimAllowed]

/-- Witness for C6: OPEN → CLOSED is allowed and returns the updated
copy. -/
theorem bidnotice_transition_table_witness :
    claimAllowed BidStatus.open_ BidStatus.closed = true ∧
    BidNotice.transition_to
        { bid_notice_id := "B", title := "t", status := BidStatus.open_ }
        BidStatus.closed =
      Except.ok { bid_notice_id := "B", title := "t",
                  status := BidStatus.closed } := by
  refine ⟨rfl, ?_⟩
  exact (bidnotice_transition_table
    { bid_notice_id := "B", title := "t", status := BidStatus.open_ }
    BidStatus.closed).2 rfl

lemma flushOp_ok_idCache (keyOf : α → String) (s u : Storage α)
    (h : s.flushOp keyOf = Except.ok u) : u.idCache = s.idCache := by
  by_cases h1 : s.buffer.isEmpty
  · simp only [Storage.flushOp, h1, if_pos, Except.ok.injEq] at h
    rw [← h]
  · by_cases h2 : s.ioFail
    · simp [Storage.flushOp, h1, h2] at h
    · simp only [Storage.flushOp, h1, h2, if_neg, Bool.false_eq_true,
        ite_false, Except.ok.injEq] at h
      rw [← h]

lemma flushOp_ok_inv (keyOf : α → String) (s u : Storage α)
    (h : s.flushOp keyOf = Except.ok u) (hinv : StorageInv keyOf s) :
    StorageInv keyOf u := by
  by_cases h1 : s.buffer.isEmpty
  · simp only [Storage.flushOp, h1, if_pos, Except.ok.injEq] at h
    rw [← h]; exact hinv
  · by_cases h2 : s.ioFail
    · simp [Storage.flushOp, h1, h2] at h
    · simp only [Storage.flushOp, h1, h2, if_neg, Bool.false_eq_true,
        ite_false, Except.ok.injEq] at h
      rw [← h]
      intro x
      have hx := hinv x
      simp only [Accepted] at hx ⊢
      simp at hx ⊢
      rw [hx]
      constructor
      · rintro (⟨i, hib, rfl⟩ | ⟨i, hid, rfl⟩)
        · by_cases hd : ∃ j ∈ s.disk, keyOf j = keyOf i
          · obtain ⟨j, hj, hkey⟩ := hd
            exact Or.inl ⟨j, hj, hkey⟩
          · exact Or.inr ⟨i, ⟨hib, fun j hj hkey => hd ⟨j, hj, hkey⟩⟩, rfl⟩
        · exact Or.inl ⟨i, hid, rfl⟩
      · rintro (⟨i, hid, rfl⟩ | ⟨i, ⟨hib, _⟩, rfl⟩)
        · exact Or.inr ⟨i, hid, rfl⟩
        · exact Or.inl ⟨i, hib, rfl⟩

lemma saveOp_ok_cases (keyOf : α → String) (s : Storage α) (bid : α)
    (b : Bool) (t : Storage α)
    (h : Storage.saveOp keyOf s bid = Except.ok (b, t)) :
    (b = false ↔ keyOf bid ∈ s.idCache) ∧ keyOf bid ∈ t.idCache := by
  by_cases hex : s.existsId (keyOf bid)
  · have hmem : keyOf bid ∈ s.idCache := by
      simpa [Storage.existsId] using hex
    by_cases hraise : s.raiseOnDuplicate
    · simp [Storage.saveOp, hex, hraise] at h
    · simp only [Storage.saveOp, hex, if_pos, hraise, Bool.false_eq_true,
        ite_false, Except.ok.injEq, Prod.mk.injEq] at h
      obtain ⟨hb, ht⟩ := h
      subst hb; subst ht
      exact ⟨by simp [hmem], hmem⟩
  · have hmem : keyOf bid ∉ s.idCache := by
      simpa [Storage.existsId] using hex
    by_cases hind : s.individualFiles
    · by_cases hio : s.ioFail
      · simp [Storage.saveOp, hex, hind, hio] at h
      · simp only [Storage.saveOp, hex, Bool.false_eq_true, ite_false, hind,
          if_pos, hio, Except.ok.injEq, Prod.mk.injEq] at h
        obtain ⟨hb, ht⟩ := h
        subst hb; subst ht
        exact ⟨by simp [hmem], by simp⟩
    · by_cases hlen : 10 ≤ (bufferAppend keyOf s bid).buffer.length
      · rcases hflush : (bufferAppend keyOf s bid).flushOp keyOf with e | s2
        · simp [Storage.saveOp, hex, hind, hlen, hflush] at h
        · have hcache := flushOp_ok_idCache keyOf _ s2 hflush
          simp only [Storage.saveOp, hex, Bool.false_eq_true, ite_false,
            hind, hlen, if_pos, hflush, Except.ok.injEq,
            Prod.mk.injEq] at h
          obtain ⟨hb, ht⟩ := h
          subst hb; subst ht
          refine ⟨by simp [hmem], ?_⟩
          rw [hcache]
          simp [bufferAppend]
      · simp only [Storage.saveOp, hex, Bool.false_eq_true, ite_false, hind,
          hlen, if_neg, Except.ok.injEq, Prod.mk.injEq] at h
        obtain ⟨hb, ht⟩ := h
        subst hb; subst ht
        refine ⟨by simp [hmem], ?_⟩
        simp [bufferAppend]

lemma bufferAppend_inv (keyOf : α → String) (s : Storage α) (bid : α)
    (hinv : StorageInv keyOf s) :
    StorageInv keyOf (bufferAppend keyOf s bid) := by
  intro x
  have hx := hinv x
  simp only [Accepted, bufferAppend] at hx ⊢
  simp at hx ⊢
  rw [hx]
  aesop

lemma saveOp_ok_inv (keyOf : α → String) (s : Storage α) (bid : α)
    (b : Bool) (t : Storage α)
    (h : Storage.saveOp keyOf s bid = Except.ok (b, t))
    (hinv : StorageInv keyOf s) : StorageInv keyOf t := by
  by_cases hex : s.existsId (keyOf bid)
  · by_cases hraise : s.raiseOnDuplicate
    · simp [Storage.saveOp, hex, hraise] at h
    · simp only [Storage.saveOp, hex, if_pos, hraise, Bool.false_eq_true,
        ite_false, Except.ok.injEq, Prod.mk.injEq] at h
      rw [← h.2]; exact hinv
  · by_cases hind : s.individualFiles
    · by_cases hio : s.ioFail
      · simp [Storage.saveOp, hex, hind, hio] at h
      · simp only [Storage.saveOp, hex, Bool.false_eq_true, ite_false, hind,
          if_pos, hio, Except.ok.injEq, Prod.mk.injEq] at h
        rw [← h.2]
        intro x
        have hx := hinv x
        simp only [Accepted] at hx ⊢
        simp at hx ⊢
        rw [hx]
        aesop
    · by_cases hlen : 10 ≤ (bufferAppend keyOf s bid).buffer.length
      · rcases hflush : (bufferAppend keyOf s bid).flushOp keyOf with e | s2
        · simp [Storage.saveOp, hex, hind, hlen, hflush] at h
        · simp only [Storage.saveOp, hex, Bool.false_eq_true, ite_false,
            hind, hlen, if_pos, hflush, Except.ok.injEq,
            Prod.mk.injEq] at h
          rw [← h.2]
          exact flushOp_ok_inv keyOf _ s2 hflush
            (bufferAppend_inv keyOf s bid hinv)
      · simp only [Storage.saveOp, hex, Bool.false_eq_true, ite_false, hind,
          hlen, if_neg, Except.ok.injEq, Prod.mk.injEq] at h
        rw [← h.2]
        exact bufferAppend_inv keyOf s bid hinv

lemma mkStorage_inv (disk : List α) (keyOf : α → String)
    (f1 f2 f3 : Bool) (hids : ∀ i ∈ disk, keyOf i ≠ "") :
    StorageInv keyOf (mkStorage disk keyOf f1 f2 f3) := by
  intro x
  simp only [mkStorage, Accepted]
  simp
  intro i hi hkey
  rw [← hkey]
  exact hids i hi

/-- C5: whenever `save` returns without an exception, it returned
`false` exactly when the item's id was already accepted (buffered or
durable — via the cache invariant, which construction establishes and
`save`/`flush` preserve); and whenever it returned `true`, `exists` on
the id answers `true` immediately, no flush needed. -/
theorem repository_save_dedup_contract (keyOf : α → String)
    (s : Storage α) (hinv : StorageInv keyOf s) (bid : α) (b : Bool)
    (t : Storage α) (h : Storage.saveOp keyOf s bid = Except.ok (b, t)) :
    (b = false ↔ Accepted keyOf s (keyOf bid)) ∧
    (b = true → Storage.existsId t (keyOf bid) = true) := by
  obtain ⟨hiff, hmem⟩ := saveOp_ok_cases keyOf s bid b t h
  refine ⟨hiff.trans (hinv (keyOf bid)), fun _ => ?_⟩
  simpa [Storage.existsId] using hmem

/-- Witness for C5: saving id "A" into a repository that already buffers
"A" returns `false`, and `exists` still answers `true`. -/
theorem repository_save_dedup_contract_witness :
    (false = false ↔ Accepted (fun x => x)
        ({ buffer := ["A"], idCache := ["A"] } : Storage String) "A") ∧
    (false = true → Storage.existsId
        ({ buffer := ["A"], idCache := ["A"] } : Storage String) "A"
        = true) :=
  repository_save_dedup_contract (fun x => x)
    ({ buffer := ["A"], idCache := ["A"] } : Storage String)
    (by intro x; simp [Accepted]) "A" false
    ({ buffer := ["A"], idCache := ["A"] } : Storage String) (by rfl)

lemma loadGo_succ_ne_recErr (parse : String → Option σ) (fuel : Nat)
    (fs : StateFiles) : loadGo parse (fuel + 1) fs ≠ LoadOut.recErr := by
  cases hp : fs.primary with
  | none => simp [loadGo, hp]
  | some p =>
    cases hps : parse p with
    | some st => simp [loadGo, hp, hps]
    | none =>
      cases hb : fs.backup with
      | none => simp [loadGo, hp, hps, hb]
      | some b =>
        simp only [loadGo, hp, hps, hb]
        cases loadGo parse fuel { primary := some b, backup := some b } <;>
          simp

lemma loadGo_both_fail (parse : String → Option σ) (b : String)
    (hb : parse b = none) :
    ∀ fuel p, parse p = none → 1 ≤ fuel →
      loadGo parse fuel { primary := some p, backup := some b } =
        LoadOut.ok none := by
  intro fuel
  induction fuel with
  | zero => intro p hp h1; omega
  | succ n ih =>
    intro p hp _
    by_cases hn : 1 ≤ n
    · have hin := ih b hb hn
      simp [loadGo, hp, hin]
    · have hn0 : n = 0 := by omega
      subst hn0
      simp [loadGo, hp, hb]

/-- C7: with at least one unit of recursion headroom, `load` never lets
an exception escape (every branch returns); a parsing primary file is
returned; a failing primary recovers the state from a parsing backup;
and when primary and backup both fail to parse, `load` returns `None`
(the futile copy-and-reload recursion bottoms out at the interpreter's
recursion limit, whose `RecursionError` the backup-restore `except`
swallows). -/
theorem statemanager_load_total_and_recovers (parse : String → Option σ)
    (fuel : Nat) (fs : StateFiles) (hfuel : 1 ≤ fuel) :
    (stateManagerLoad parse fuel fs ≠ LoadOut.recErr) ∧
    (∀ p st, fs.primary = some p → parse p = some st →
      stateManagerLoad parse fuel fs = LoadOut.ok (some st)) ∧
    (∀ p b st, fs.primary = some p → parse p = none → fs.backup = some b →
      parse b = some st → 2 ≤ fuel →
      stateManagerLoad parse fuel fs = LoadOut.ok (some st)) ∧
    (∀ p, fs.primary = some p → parse p = none →
      (∀ b, fs.backup = some b → parse b = none) →
      stateManagerLoad parse fuel fs = LoadOut.ok none) := by
  obtain ⟨m, rfl⟩ : ∃ m, fuel = m + 1 := ⟨fuel - 1, by omega⟩
  refine ⟨loadGo_succ_ne_recErr parse m fs, ?_, ?_, ?_⟩
  · intro p st hp hps
    simp [stateManagerLoad, loadGo, hp, hps]
  · intro p b st hp hps hb hpb h2
    obtain ⟨k, rfl⟩ : ∃ k, m = k + 1 := ⟨m - 1, by omega⟩
    simp [stateManagerLoad, loadGo, hp, hps, hb, hpb]
  · intro p hp hps hback
    cases hb : fs.backup with
    | none => simp [stateManagerLoad, loadGo, hp, hps, hb]
    | some b =>
      have hpb : parse b = none := hback b hb
      have hfs : fs = { primary := some p, backup := some b } := by
        cases fs
        simp only [StateFiles.mk.injEq]
        simp at hp hb
        exact ⟨hp, hb⟩
      rw [stateManagerLoad, hfs]
      exact loadGo_both_fail parse b hpb (m + 1) p hps (by omega)

/-- Witness for C7: with numeric parsing, a parsing primary is
returned, and a run where primary and backup both fail to parse
returns `None`. -/
theorem statemanager_load_total_and_recovers_witness :
    stateManagerLoad (fun s => if s = "42" then some 42 else none) 5
      { primary := some "42", backup := some "bb" } = LoadOut.ok (some 42) ∧
    stateManagerLoad (fun s => if s = "42" then some 42 else none) 5
      { primary := some "aa", backup := some "bb" } = LoadOut.ok none := by
  constructor
  · exact (statemanager_load_total_and_recovers
      (fun s => if s = "42" then some 42 else none) 5
      { primary := some "42", backup := some "bb" } (by omega)).2.1
      "42" 42 rfl (by decide)
  · exact (statemanager_load_total_and_recovers
      (fun s => if s = "42" then some 42 else none) 5
      { primary := some "aa", backup := some "bb" } (by omega)).2.2.2
      "aa" rfl (by decide) (fun b hb => by cases hb; decide)

/-- C8 counterexample: constructing a `BidNotice` with an empty
`bid_notice_id` and a negative `estimated_price` succeeds — no
validator rejects either — refuting the claim that construction raises
`InputValidation` for such inputs. -/
theorem bidnotice_construction_no_id_price_validation :
    mkBidNotice String.toInt? "" "t" BidStatus.unknown
        (some (PriceInput.num (-5))) none none 0 =
      Except.ok { bid_notice_id := "", title := "t",
                  status := BidStatus.unknown,
                  estimated_price := some (-5), base_price := none,
                  detail_url := none, crawled_at := 0 } := by
  rfl

/-- C8 amended: the only validation `BidNotice` construction performs
is the price-format conversion: it raises `InvalidBidDataException`
exactly when a provided `estimated_price` or `base_price` fails the
`Decimal` conversion, and otherwise stores the fields as given —
including empty ids and negative prices. -/
theorem bidnotice_construction_validates_price_format
    (decParse : String → Option Int) (bidNoticeId title : String)
    (status : BidStatus) (est base : Option PriceInput)
    (detailUrl : Option String) (now : Nat) :
    (mkBidNotice decParse bidNoticeId title status est base detailUrl now =
        Except.error () ↔
      (convertToDecimal decParse est = Except.error () ∨
       convertToDecimal decParse base = Except.error ())) ∧
    (∀ e bp, convertToDecimal decParse est = Except.ok e →
      convertToDecimal decParse base = Except.ok bp →
      mkBidNotice decParse bidNoticeId title status est base detailUrl now =
        Except.ok { bid_notice_id := bidNoticeId, title := title,
                    status := status, estimated_price := e,
                    base_price := bp, detail_url := detailUrl,
                    crawled_at := now }) := by
  constructor
  · cases he : convertToDecimal decParse est with
    | error u => cases u; simp [mkBidNotice, he]
    | ok e =>
      cases hb2 : convertToDecimal decParse base with
      | error u => cases u; simp [mkBidNotice, he, hb2]
      | ok bp => simp [mkBidNotice, he, hb2]
  · intro e bp he hb2
    simp [mkBidNotice, he, hb2]

/-- Witness for the amended C8: a parseable string price converts and
is stored. -/
theorem bidnotice_construction_validates_price_format_witness :
    mkBidNotice (fun s => if s = "12" then some 12 else none) "x" "t"
        BidStatus.unknown (some (PriceInput.txt "12")) none none 0 =
      Except.ok { bid_notice_id := "x", title := "t",
                  status := BidStatus.unknown,
                  estimated_price := some 12, base_price := none,
                  detail_url := none, crawled_at := 0 } :=
  (bidnotice_construction_validates_price_format
    (fun s => if s = "12" then some 12 else none) "x" "t"
    BidStatus.unknown (some (PriceInput.txt "12")) none none 0).2
    (some 12) none (by rfl) (by rfl)

/-- C9 counterexample: for the default state file
`data/crawl_state.json` the sidecar computed by
`with_suffix(".backup.json")` is `data/crawl_state.backup.json`, not
the appended `data/crawl_state.json.backup` the claim names; after a
save, nothing exists at the appended path. -/
theorem statemanager_backup_path_counterexample :
    backupFileOf "data/crawl_state.json" = "data/crawl_state.backup.json" ∧
    backupFileOf "data/crawl_state.json" ≠ "data/crawl_state.json.backup" ∧
    stateManagerSave
        (fun q => if q = "data/crawl_state.json" then some "old" else none)
        "data/crawl_state.json" "new" "data/crawl_state.json.backup"
      = none := by
  refine ⟨by decide, by decide, by decide⟩

/-- C9 amended: when the state file exists, `save` copies its contents
to the backup path before writing the new state to the primary path —
but the backup path is the state file with its final suffix *replaced*
by `.backup.json` (pathlib `with_suffix`), not the full name with
`.backup` appended. -/
theorem statemanager_save_backs_up_then_writes
    (fsys : String → Option String) (stateFile new old : String)
    (hne : backupFileOf stateFile ≠ stateFile)
    (hold : fsys stateFile = some old) :
    stateManagerSave fsys stateFile new stateFile = some new ∧
    stateManagerSave fsys stateFile new (backupFileOf stateFile)
      = some old := by
  unfold stateManagerSave
  rw [hold]
  constructor
  · simp
  · simp [hne]

/-- Witness for the amended C9 at a concrete file system. -/
theorem statemanager_save_backs_up_then_writes_witness :
    stateManagerSave (fun q => if q = "s.json" then some "old" else none)
      "s.json" "new" "s.json" = some "new" ∧
    stateManagerSave (fun q => if q = "s.json" then some "old" else none)
      "s.json" "new" (backupFileOf "s.json") = some "old" :=
  statemanager_save_backs_up_then_writes
    (fun q => if q = "s.json" then some "old" else none)
    "s.json" "new" "old" (by decide) (by rfl)

/-- C10: for a task whose notice has no `detail_url` and whose id is
not yet collected, `process` performs zero `DetailScraper` invocations,
saves the partial detail record (the notice's fields with
`crawl_success = false` and `crawl_error = "No detail URL"`) to the
repository, marks the id collected, and returns that record. -/
theorem itemprocessor_no_detail_url
    (scrape : String → BidNotice → ScrapeResult) (baseUrl : String)
    (notice : BidNotice) (index now : Nat) (st : CrawlState)
    (repo : Storage DetailRecord)
    (hurl : notice.detail_url = none)
    (hnew : notice.bid_notice_id ∉ st.collected_ids)
    (b : Bool) (repo1 : Storage DetailRecord)
    (hsave : Storage.saveOp (fun r => r.base.bid_notice_id) repo
        { base := notice, detail_crawled_at := some now,
          crawl_success := false, crawl_error := some "No detail URL" }
        = Except.ok (b, repo1)) :
    item_process scrape baseUrl notice index now st repo =
      Except.ok
        { result := some
            { base := notice, detail_crawled_at := some now,
              crawl_success := false, crawl_error := some "No detail URL" },
          scraperCalls := 0,
          state := ((st.update_progress none (some index) none
            now).mark_collected notice.bid_notice_id now).2,
          repo := repo1 } ∧
    notice.bid_notice_id ∈
      (((st.update_progress none (some index) none now).mark_collected
        notice.bid_notice_id now).2).collected_ids := by
  have hcol : st.is_collected notice.bid_notice_id = false := by
    simp [CrawlState.is_collected, hnew]
  constructor
  · simp only [item_process, hcol, Bool.false_eq_true, ite_false,
      crawl_detail, hurl, hsave]
  · simp [CrawlState.mark_collected, CrawlState.update_progress, hnew]

/-- Witness for C10 on a concrete task with no detail URL against an
empty repository and a fresh state. -/
theorem itemprocessor_no_detail_url_witness :
    item_process (fun _ _ => ScrapeResult.unexpected) "http://b"
        { bid_notice_id := "N", title := "t" } 0 1 (mkCrawlState "r" 0)
        ({} : Storage DetailRecord) =
      Except.ok
        { result := some
            { base := { bid_notice_id := "N", title := "t" },
              detail_crawled_at := some 1, crawl_success := false,
              crawl_error := some "No detail URL" },
          scraperCalls := 0,
          state := (((mkCrawlState "r" 0).update_progress none (some 0) none
            1).mark_collected "N" 1).2,
          repo := bufferAppend (fun r => r.base.bid_notice_id)
            ({} : Storage DetailRecord)
            { base := { bid_notice_id := "N", title := "t" },
              detail_crawled_at := some 1, crawl_success := false,
              crawl_error := some "No detail URL" } } ∧
    "N" ∈ ((((mkCrawlState "r" 0).update_progress none (some 0) none
        1).mark_collected "N" 1).2).collected_ids :=
  itemprocessor_no_detail_url (fun _ _ => ScrapeResult.unexpected) "http://b"
    { bid_notice_id := "N", title := "t" } 0 1 (mkCrawlState "r" 0)
    ({} : Storage DetailRecord) rfl (by decide) true
    (bufferAppend (fun r => r.base.bid_notice_id)
      ({} : Storage DetailRecord)
      { base := { bid_notice_id := "N", title := "t" },
        detail_crawled_at := some 1, crawl_success := false,
        crawl_error := some "No detail URL" }) (by rfl)

end Reco
